import Mathlib

/-!
Verification of the hhd virtual uinput output device
(`src/hhd/controller/virtual/uinput/__init__.py`) and the power-button
watchdog (`src/hhd/plugins/powerbutton/base.py`).

The Python source is shallowly embedded: the mutable attributes of
`UInputDevice` become an explicit state record, kernel writes become an
output list, and the watchdog loops become step functions over explicit
environment inputs.  Machine floats are modelled by `ℚ` and Python ints
by `ℤ`/`ℕ`.  Python `//` on integers is floor division, which for the
positive divisors appearing here agrees with Lean's `Int` division
(E-rounding), so plain `/` is used on `ℤ`.
-/

namespace Hhd

/-! ## Linux evdev constants (values of `evdev.ecodes`, resolved by `B`) -/

def EV_KEY : Nat := 1
def EV_ABS : Nat := 3
def EV_MSC : Nat := 4
def EV_FF : Nat := 21
def EV_UINPUT : Nat := 257
def MSC_TIMESTAMP : Nat := 5
def UI_FF_UPLOAD : Nat := 1
def UI_FF_ERASE : Nat := 2
def FF_RUMBLE : Nat := 80
def KEY_POWER : Nat := 116
def KEY_A : Nat := 30
def KEY_B : Nat := 48
def KEY_C : Nat := 46

/-! ## Helpers for Python semantics -/

/-- Python `int(q)` on a real number truncates toward zero. -/
def pyInt (q : ℚ) : ℤ := if 0 ≤ q then ⌊q⌋ else ⌈q⌉

/-- Lookup in a Python dict modelled as an association list
(`code in map` followed by `map[code]`). -/
def alookup {β : Type} : List (String × β) → String → Option β
  | [], _ => none
  | (k, v) :: rest, key => if key = k then some v else alookup rest key

/-! ## Data model of the virtual output device -/

/-- An axis-map entry (`AX` in the source): target evdev axis id, scale,
offset and optional `(low, high)` bounds. -/
structure AX where
  id : ℤ
  scale : ℚ
  offset : ℚ
  bounds : Option (ℤ × ℤ)
deriving DecidableEq

/-- Immutable configuration of a `UInputDevice`
(constructor arguments `axis_map`, `btn_map`, `output_timestamps`). -/
structure UInputCfg where
  axisMap : List (String × AX)
  btnMap : List (String × ℤ)
  outputTimestamps : Bool
deriving DecidableEq

/-- Abstract rumble event emitted by `produce`
(the dict with keys type/code/weak_magnitude/strong_magnitude). -/
structure RumbleOut where
  code : String
  weak_magnitude : ℚ
  strong_magnitude : ℚ
deriving DecidableEq

/-- Mutable attribute state of a `UInputDevice`: `self.dev` (is a device
handle held), `self.fd`, `self.ofs` and `self.rumble`. -/
structure DevState where
  devOpen : Bool
  fd : Option ℤ
  ofs : ℤ
  rumble : Option RumbleOut
deriving DecidableEq

/-- Attribute state right after `__init__`: no device, `ofs = 0`,
no rumble effect remembered (`self.fd` is not yet assigned). -/
def initState : DevState := ⟨false, none, 0, none⟩

/-- State of a device after a successful `open()` returning descriptor 5. -/
def stOpen : DevState := ⟨true, some 5, 0, none⟩

/-- Abstract events fed to `consume` (the dicts matched on `ev["type"]`);
kinds other than axis/button fall through the `match` silently.  Axis
values are the spec's i64 payload; timestamp events arrive through the
same `"axis"` case with the raw nanosecond count as value. -/
inductive InEvent where
  | axis (code : String) (value : ℤ)
  | button (code : String) (value : Bool)
  | other
deriving DecidableEq

/-- Events written to the kernel device by `consume`
(`self.dev.write(...)` and the final `self.dev.syn()`). -/
inductive Write where
  | abs (id : ℤ) (val : ℤ)
  | mscTimestamp (val : ℤ)
  | key (code : ℤ) (val : ℤ)
  | syn
deriving DecidableEq

/-- One iteration of the `for ev in events` loop of `UInputDevice.consume`:
returns the new `self.ofs` and the writes issued for this event.
The timestamp branch is `ts = ev["value"] // 1000`, a reset of `self.ofs`
when `ts > self.ofs + 2**30`, then `ts -= self.ofs`. -/
def consumeEvent (cfg : UInputCfg) (ofs : ℤ) (ev : InEvent) : ℤ × List Write :=
  match ev with
  | .axis code value =>
    match alookup cfg.axisMap code with
    | some ax =>
      let val := pyInt (ax.scale * (value : ℚ) + ax.offset)
      let val := match ax.bounds with
        | some b => min (max val b.1) b.2
        | none => val
      (ofs, [Write.abs ax.id val])
    | none =>
      if cfg.outputTimestamps = true ∧ (code = "accel_ts" ∨ code = "gyro_ts") then
        let ts := value / 1000
        let ofs := if ofs + 2 ^ 30 < ts then ts else ofs
        (ofs, [Write.mscTimestamp (ts - ofs)])
      else (ofs, [])
  | .button code value =>
    match alookup cfg.btnMap code with
    | some k => (ofs, [Write.key k (if value then 1 else 0)])
    | none => (ofs, [])
  | .other => (ofs, [])

/-- The whole `for` loop of `consume`, threading `self.ofs` and
concatenating the writes in order. -/
def consumeList (cfg : UInputCfg) (ofs : ℤ) : List InEvent → ℤ × List Write
  | [] => (ofs, [])
  | ev :: rest =>
    let r1 := consumeEvent cfg ofs ev
    let r2 := consumeList cfg r1.1 rest
    (r2.1, r1.2 ++ r2.2)

/-- `UInputDevice.consume`: returns immediately when `self.dev` is unset,
otherwise processes all events and ends with `self.dev.syn()`. -/
def consume (cfg : UInputCfg) (st : DevState) (evs : List InEvent) :
    DevState × List Write :=
  if st.devOpen then
    let r := consumeList cfg st.ofs evs
    ({ st with ofs := r.1 }, r.2 ++ [Write.syn])
  else (st, [])

/-- The clamping the source applies when an axis entry has bounds:
`min(max(val, bounds[0]), bounds[1])`. -/
def applyBounds : Option (ℤ × ℤ) → ℤ → ℤ
  | some b, x => min (max x b.1) b.2
  | none, x => x

/-! ## Theorems for claims C1, C4 and C10 -/

lemma consumeEvent_axis_mapped (cfg : UInputCfg) (ofs : ℤ) (code : String)
    (v : ℤ) (ax : AX) (hax : alookup cfg.axisMap code = some ax) :
    consumeEvent cfg ofs (InEvent.axis code v) =
      (ofs, [Write.abs ax.id (applyBounds ax.bounds (pyInt (ax.scale * (v : ℚ) + ax.offset)))]) := by
  simp only [consumeEvent, hax]
  cases h : ax.bounds with
  | none => simp [applyBounds]
  | some b => simp [applyBounds]

/-- Claim C1 (amended): for an axis event whose code is in the axis map,
`consume` writes exactly the mapped value
`clamp(trunc(value*scale+offset), lo, hi)` (truncation toward zero, as
Python `int()` does) when bounds are present, the unclamped truncation
otherwise, followed by the sync barrier; the device state is unchanged and
the written value is a pure function of the input value and the map entry. -/
theorem C1_axis_mapping (cfg : UInputCfg) (st : DevState) (code : String)
    (v : ℤ) (ax : AX) (hopen : st.devOpen = true)
    (hax : alookup cfg.axisMap code = some ax) :
    consume cfg st [InEvent.axis code v] =
      (st, [Write.abs ax.id (applyBounds ax.bounds (pyInt (ax.scale * (v : ℚ) + ax.offset))),
            Write.syn]) := by
  obtain ⟨dOpen, fd, ofs, rumble⟩ := st
  subst hopen
  simp [consume, consumeList, consumeEvent_axis_mapped cfg ofs code v ax hax]

/-- Witness for C1: a concrete mapping with scale 2, offset 1 and bounds
`(-3, 4)` processed on an open device. -/
theorem C1_axis_mapping_witness :
    consume ⟨[("x", ⟨9, 2, 1, some (-3, 4)⟩)], [], false⟩ stOpen
        [InEvent.axis "x" 3] =
      (stOpen,
       [Write.abs 9 (applyBounds (some (-3, 4)) (pyInt (2 * ((3 : ℤ) : ℚ) + 1))), Write.syn]) :=
  C1_axis_mapping ⟨[("x", ⟨9, 2, 1, some (-3, 4)⟩)], [], false⟩
    stOpen "x" 3 ⟨9, 2, 1, some (-3, 4)⟩ rfl rfl

/-- The concrete configuration of the C1 counterexample: one axis `"x"`
mapped with scale `3/5`, offset `0`, no bounds. -/
def cfgC1 : UInputCfg := ⟨[("x", ⟨7, 3/5, 0, none⟩)], [], false⟩

/-- Counterexample for C1 as stated: with scale `3/5`, offset `0`, no
bounds, input value `1`, the claimed formula `round(v*scale+offset)` gives
`round(3/5) = 1`, but the code (Python `int()` truncation) writes `0`. -/
theorem C1_round_counterexample :
    (consume cfgC1 stOpen [InEvent.axis "x" 1]).2 = [Write.abs 7 0, Write.syn] ∧
    round ((3/5 : ℚ) * ((1 : ℤ) : ℚ) + 0) = 1 ∧
    Write.abs 7 1 ∉ (consume cfgC1 stOpen [InEvent.axis "x" 1]).2 := by
  have h0 : pyInt ((3/5 : ℚ)) = 0 := by norm_num [pyInt]
  refine ⟨?_, ?_, ?_⟩
  · simp [consume, consumeList, consumeEvent, alookup, cfgC1, stOpen, h0]
  · rw [round_eq]; norm_num
  · simp [consume, consumeList, consumeEvent, alookup, cfgC1, stOpen, h0]

/-- Claim C10: `consume` on a device that has never been opened
(`self.dev` unset) is a total no-op: no writes, no sync barrier, and the
state (`ofs`, `rumble`, everything) is unchanged. -/
theorem C10_consume_closed_noop (cfg : UInputCfg) (st : DevState)
    (evs : List InEvent) (h : st.devOpen = false) :
    consume cfg st evs = (st, []) := by
  simp [consume, h]

/-- Witness for C10: the freshly constructed device ignores a batch of
events entirely. -/
theorem C10_consume_closed_noop_witness :
    consume cfgC1 initState
      [InEvent.axis "x" 1, InEvent.button "a" true, InEvent.other] =
      (initState, []) :=
  C10_consume_closed_noop cfgC1 initState
    [InEvent.axis "x" 1, InEvent.button "a" true, InEvent.other] rfl

/-- The timestamp branch of `consumeEvent` in one equation. -/
lemma consumeEvent_ts (cfg : UInputCfg) (hts : cfg.outputTimestamps = true)
    (hax : alookup cfg.axisMap "accel_ts" = none) (ofs v : ℤ) :
    consumeEvent cfg ofs (InEvent.axis "accel_ts" v) =
      (if ofs + 2 ^ 30 < v / 1000 then v / 1000 else ofs,
       [Write.mscTimestamp (v / 1000 - (if ofs + 2 ^ 30 < v / 1000 then v / 1000 else ofs))]) := by
  simp only [consumeEvent, hax, hts]
  rw [if_pos ⟨trivial, Or.inl trivial⟩]

lemma consumeEvent_ts_noReset (cfg : UInputCfg) (hts : cfg.outputTimestamps = true)
    (hax : alookup cfg.axisMap "accel_ts" = none) (ofs v : ℤ)
    (h : ¬ (ofs + 2 ^ 30 < v / 1000)) :
    consumeEvent cfg ofs (InEvent.axis "accel_ts" v) =
      (ofs, [Write.mscTimestamp (v / 1000 - ofs)]) := by
  rw [consumeEvent_ts cfg hts hax, if_neg h]

lemma consumeEvent_ts_reset (cfg : UInputCfg) (hts : cfg.outputTimestamps = true)
    (hax : alookup cfg.axisMap "accel_ts" = none) (ofs v : ℤ)
    (h : ofs + 2 ^ 30 < v / 1000) :
    consumeEvent cfg ofs (InEvent.axis "accel_ts" v) =
      (v / 1000, [Write.mscTimestamp 0]) := by
  rw [consumeEvent_ts cfg hts hax, if_pos h, sub_self]

/-- Timestamp events inside the window of an offset: as long as every
converted value stays at most `ofs + 2^30`, the offset is never reset and
each write is the converted value minus the offset. -/
lemma consumeList_ts_steady (cfg : UInputCfg) (hts : cfg.outputTimestamps = true)
    (hax : alookup cfg.axisMap "accel_ts" = none) (ofs : ℤ) :
    ∀ vs : List ℤ, (∀ v ∈ vs, v / 1000 ≤ ofs + 2 ^ 30) →
      consumeList cfg ofs (vs.map (fun v => InEvent.axis "accel_ts" v)) =
        (ofs, vs.map (fun v => Write.mscTimestamp (v / 1000 - ofs))) := by
  intro vs
  induction vs with
  | nil => intro _; simp [consumeList]
  | cons v vs ih =>
    intro hwin
    have hnr : ¬ (ofs + 2 ^ 30 < v / 1000) :=
      not_lt.mpr (hwin v (List.mem_cons_self v vs))
    have ihh := ih (fun w hw => hwin w (List.mem_cons_of_mem v hw))
    simp only [List.map_cons, consumeList,
      consumeEvent_ts_noReset cfg hts hax ofs v hnr, ihh]
    simp

/-- Claim C4: feeding timestamp events (output timestamps enabled), each
raw nanosecond value is floor-divided by 1000 and the offset subtracted
before writing; a first value exceeding the initial offset by more than
`2^30` resets the offset to its converted value, and within the window
after the reset (raw values non-decreasing, converted values within `2^30`
of the new offset) every written timestamp is non-negative and the writes
are monotonically non-decreasing. -/
theorem C4_timestamp_window (cfg : UInputCfg) (hts : cfg.outputTimestamps = true)
    (hax : alookup cfg.axisMap "accel_ts" = none)
    (ofs₀ v₀ : ℤ) (vs : List ℤ)
    (hreset : ofs₀ + 2 ^ 30 < v₀ / 1000)
    (hsort : List.Sorted (· ≤ ·) (v₀ :: vs))
    (hwin : ∀ v ∈ vs, v / 1000 ≤ v₀ / 1000 + 2 ^ 30) :
    consumeList cfg ofs₀ ((v₀ :: vs).map (fun v => InEvent.axis "accel_ts" v)) =
      (v₀ / 1000, (v₀ :: vs).map (fun v => Write.mscTimestamp (v / 1000 - v₀ / 1000))) ∧
    (∀ w ∈ (v₀ :: vs).map (fun v => v / 1000 - v₀ / 1000), 0 ≤ w) ∧
    List.Chain' (· ≤ ·) ((v₀ :: vs).map (fun v => v / 1000 - v₀ / 1000)) := by
  have hd : ∀ v ∈ v₀ :: vs, v₀ ≤ v := by
    intro v hv
    rcases List.mem_cons.mp hv with h | h
    · exact h ▸ le_refl v₀
    · exact (List.sorted_cons.mp hsort).1 v h
  refine ⟨?_, ?_, ?_⟩
  · simp only [List.map_cons, consumeList,
      consumeEvent_ts_reset cfg hts hax ofs₀ v₀ hreset,
      consumeList_ts_steady cfg hts hax (v₀ / 1000) vs hwin]
    simp
  · intro w hw
    obtain ⟨v, hv, rfl⟩ := List.mem_map.mp hw
    have : v₀ / 1000 ≤ v / 1000 := Int.ediv_le_ediv (by norm_num) (hd v hv)
    omega
  · have hp : ((v₀ :: vs).map (fun v => v / 1000 - v₀ / 1000)).Pairwise (· ≤ ·) := by
      refine List.Pairwise.map _ ?_ hsort
      intro a b hab
      have : a / 1000 ≤ b / 1000 := Int.ediv_le_ediv (by norm_num) hab
      omega
    exact hp.chain'

/-- Witness for C4: starting from offset `-(2^30)`, raw values 1000 and
2000 ns: the first converts to 1, resets the offset to 1, and the written
timestamps are 0 and 1. -/
theorem C4_timestamp_window_witness :
    consumeList ⟨[], [], true⟩ (-(2 ^ 30)) ([(1000 : ℤ), 2000].map (fun v => InEvent.axis "accel_ts" v)) =
      ((1000 : ℤ) / 1000, [(1000 : ℤ), 2000].map (fun v => Write.mscTimestamp (v / 1000 - 1000 / 1000))) ∧
    (∀ w ∈ [(1000 : ℤ), 2000].map (fun v => v / 1000 - 1000 / 1000), 0 ≤ w) ∧
    List.Chain' (· ≤ ·) ([(1000 : ℤ), 2000].map (fun v => v / 1000 - 1000 / 1000)) :=
  C4_timestamp_window ⟨[], [], true⟩ rfl rfl (-(2 ^ 30)) 1000 [2000]
    (by decide) (by decide) (by decide)

/-! ## `UInputDevice.produce`: draining kernel feedback events -/

/-- A kernel input event read back from the uinput device
(`evdev.InputEvent`: plain fields, no transaction methods). -/
structure KEvent where
  type : Nat
  code : Nat
  value : ℤ
deriving DecidableEq

/-- `upload.effect.u.ff_rumble_effect`: raw 16-bit rumble magnitudes. -/
structure FFRumbleEffect where
  weak_magnitude : ℕ
  strong_magnitude : ℕ
deriving DecidableEq

/-- `upload.effect`: the uploaded force-feedback effect. -/
structure FFEffect where
  type : Nat
  ff_rumble : FFRumbleEffect
deriving DecidableEq

/-- Transactions invoked on the uinput device handle while draining. -/
inductive DevCall where
  | beginUpload (v : ℤ)
  | endUpload (v : ℤ)
  | beginErase (v : ℤ)
  | endErase (v : ℤ) (retval : ℤ)
  | devClose
deriving DecidableEq

/-- The exception raised by the erase branch: the source calls
`ev.end_erase(erase)` on the `InputEvent` returned by `self.dev.read()`,
but only the `UInput` device object defines `end_erase`; `InputEvent` has
no such attribute, so the call raises `AttributeError`. -/
def attrErr : String := "AttributeError: InputEvent has no attribute end_erase"

/-- Accumulated state of the drain loop of `produce`: the remembered
rumble effect (`self.rumble`), the abstract events appended to `out`, the
device transactions performed, and the pending exception (set once the
erase branch raises; the loop is then aborted). -/
structure ProduceAcc where
  rumble : Option RumbleOut
  out : List RumbleOut
  calls : List DevCall
  err : Option String
deriving DecidableEq

/-- One iteration of the `for ev in self.dev.read()` body of `produce`.
`uploads` maps an upload request id to the effect the kernel hands over in
`begin_upload`.  The erase branch performs `begin_erase`, sets
`erase.retval = 0` on the local transaction object, and then raises
`AttributeError` on `ev.end_erase(erase)` — so it never completes the
erase on the device and aborts the drain. -/
def produceStep (uploads : ℤ → FFEffect) (acc : ProduceAcc) (ev : KEvent) : ProduceAcc :=
  if acc.err.isSome then acc
  else if ev.type = EV_MSC ∧ ev.code = MSC_TIMESTAMP then acc
  else if ev.type = EV_UINPUT then
    if ev.code = UI_FF_UPLOAD then
      if (uploads ev.value).type = FF_RUMBLE then
        { acc with
          rumble := some ⟨"main", ((uploads ev.value).ff_rumble.weak_magnitude : ℚ) / 65535,
                                   ((uploads ev.value).ff_rumble.strong_magnitude : ℚ) / 65535⟩,
          calls := acc.calls ++ [DevCall.beginUpload ev.value, DevCall.endUpload ev.value] }
      else
        { acc with calls := acc.calls ++ [DevCall.beginUpload ev.value, DevCall.endUpload ev.value] }
    else if ev.code = UI_FF_ERASE then
      { acc with calls := acc.calls ++ [DevCall.beginErase ev.value], err := some attrErr }
    else acc
  else if ev.type = EV_FF ∧ ev.value ≠ 0 then
    match acc.rumble with
    | some r => { acc with out := acc.out ++ [r] }
    | none => acc
  else if ev.type = EV_FF ∧ ev.value = 0 then
    { acc with out := acc.out ++ [⟨"main", 0, 0⟩] }
  else acc

/-- The whole drain loop of `produce` over the events the kernel delivers
while `can_read` keeps reporting data. -/
def produceRun (uploads : ℤ → FFEffect) (rumble : Option RumbleOut)
    (evs : List KEvent) : ProduceAcc :=
  List.foldl (produceStep uploads) ⟨rumble, [], [], none⟩ evs

/-- Result of `UInputDevice.produce`: final attribute state, the returned
abstract events, the device transactions, and the escaping exception if
one was raised. -/
structure ProduceOut where
  st : DevState
  out : List RumbleOut
  calls : List DevCall
  err : Option String
deriving DecidableEq

/-- `UInputDevice.produce`: a no-op unless `self.fd` is truthy, a member
of `fds`, and the device handle is held; otherwise drains `queued`. -/
def produce (uploads : ℤ → FFEffect) (st : DevState) (fds : List ℤ)
    (queued : List KEvent) : ProduceOut :=
  match st.fd with
  | none => ⟨st, [], [], none⟩
  | some f =>
    if f = 0 ∨ ¬ f ∈ fds ∨ st.devOpen = false then ⟨st, [], [], none⟩
    else
      let acc := produceRun uploads st.rumble queued
      ⟨{ st with rumble := acc.rumble }, acc.out, acc.calls, acc.err⟩

/-! ## `UInputDevice.close` -/

/-- `close(exit)`: calls `self.dev.close()` when a handle is held, then
assigns `self.input = None` (an attribute never read anywhere else in the
class — `self.dev` itself is left set) and `self.fd = None`, and returns
`True` unconditionally. -/
def close (st : DevState) (_exitFlag : Bool) : DevState × List DevCall × Bool :=
  ({ st with fd := none },
   if st.devOpen then [DevCall.devClose] else [],
   true)

/-! ## Theorems for claims C5, C6 and C8 -/

/-- Claim C5: uploading a rumble-type effect with raw 16-bit magnitudes
`(w, s)` and then playing it (nonzero value) makes `produce` emit one
`RumbleEvent` on channel `"main"` with magnitudes `w/65535` and `s/65535`,
with both transactions of the upload acknowledged and no error. -/
theorem C5_rumble_roundtrip (uploads : ℤ → FFEffect) (st : DevState) (f : ℤ)
    (fds : List ℤ) (w s : ℕ) (eid pv : ℤ)
    (hfd : st.fd = some f) (hf : f ≠ 0) (hmem : f ∈ fds) (hdev : st.devOpen = true)
    (hup : uploads eid = ⟨FF_RUMBLE, ⟨w, s⟩⟩) (hpv : pv ≠ 0) :
    produce uploads st fds [⟨EV_UINPUT, UI_FF_UPLOAD, eid⟩, ⟨EV_FF, 0, pv⟩] =
      ⟨{ st with rumble := some ⟨"main", (w : ℚ) / 65535, (s : ℚ) / 65535⟩ },
       [⟨"main", (w : ℚ) / 65535, (s : ℚ) / 65535⟩],
       [DevCall.beginUpload eid, DevCall.endUpload eid], none⟩ := by
  simp only [produce, hfd]
  rw [if_neg (by simp [hf, hmem, hdev])]
  simp [produceRun, produceStep, hup, hpv, EV_UINPUT, EV_MSC, EV_FF,
    UI_FF_UPLOAD, UI_FF_ERASE, MSC_TIMESTAMP, FF_RUMBLE]

/-- The upload oracle of the C5 witness: every upload id maps to a rumble
effect with weak magnitude 32768 and strong magnitude 65535. -/
def uploadsC5 : ℤ → FFEffect := fun _ => ⟨FF_RUMBLE, ⟨32768, 65535⟩⟩

/-- Witness for C5: uploading `weak = 32768`, `strong = 65535` and playing
yields magnitudes `32768/65535 ≈ 0.5` and `65535/65535 = 1`. -/
theorem C5_rumble_roundtrip_witness :
    produce uploadsC5 stOpen [5] [⟨EV_UINPUT, UI_FF_UPLOAD, 0⟩, ⟨EV_FF, 0, 1⟩] =
      ⟨{ stOpen with rumble := some ⟨"main", (32768 : ℚ) / 65535, (65535 : ℚ) / 65535⟩ },
       [⟨"main", (32768 : ℚ) / 65535, (65535 : ℚ) / 65535⟩],
       [DevCall.beginUpload 0, DevCall.endUpload 0], none⟩ ∧
    (65535 : ℚ) / 65535 = 1 ∧ |(32768 : ℚ) / 65535 - 1/2| < 1/65535 :=
  ⟨C5_rumble_roundtrip uploadsC5 stOpen 5 [5] 32768 65535 0 1 rfl
      (by norm_num) (by simp) rfl rfl (by norm_num),
   by norm_num,
   by rw [show (32768 : ℚ)/65535 - 1/2 = 1/131070 by norm_num,
        abs_of_pos (by norm_num)]; norm_num⟩

/-- The upload oracle used where no upload content matters. -/
def uploadsZero : ℤ → FFEffect := fun _ => ⟨0, ⟨0, 0⟩⟩

/-- Claim C6 evaluated at the failing input: an erase request makes the
drain begin the erase transaction on the device and then abort with an
`AttributeError` (the source calls `end_erase` on the read `InputEvent`
instead of the device), so the erase is never completed with success
status and `produce` does not return normally. -/
theorem C6_erase_aborts :
    produce uploadsZero stOpen [5] [⟨EV_UINPUT, UI_FF_ERASE, 3⟩] =
      ⟨stOpen, [], [DevCall.beginErase 3], some attrErr⟩ := by
  simp [produce, produceRun, produceStep, stOpen, EV_UINPUT, EV_MSC,
    UI_FF_UPLOAD, UI_FF_ERASE, MSC_TIMESTAMP, attrErr]

/-- Claim C8 evaluated at the failing input: the first `close` on an open
device releases the handle and returns `True`; but because `close` never
clears `self.dev` (it assigns the unused `self.input` instead), a second
`close` invokes `self.dev.close()` on the handle again; `close` on a
never-opened device performs no device call. -/
theorem C8_close_not_idempotent :
    (close stOpen true).2.1 = [DevCall.devClose] ∧
    (close (close stOpen true).1 true).2.1 = [DevCall.devClose] ∧
    (close (close stOpen true).1 true).2.2 = true ∧
    close initState true = (initState, [], true) := by
  refine ⟨rfl, rfl, rfl, ?_⟩
  simp [close, initState]

/-! ## Power-button watchdog, timer variant (`power_button_timer`) -/

/-- `LONG_PRESS_DELAY = 2.5` seconds. -/
def LONG_PRESS_DELAY : ℚ := 5/2

/-- `STEAM_WAIT_DELAY = 0.5` seconds. -/
def STEAM_WAIT_DELAY : ℚ := 1/2

/-- What one main-loop iteration of `power_button_timer` observes after
its `select`: either the timeout expired (`r` empty), or one event was
read, with `t` the `perf_counter()` value sampled inside the key branch. -/
inductive TimerInput where
  | timeout
  | event (ty code : Nat) (value : ℤ) (t : ℚ)
deriving DecidableEq

/-- The `press_type` string computed by the iteration body. -/
inductive PressType where
  | long_press
  | short_press
  | initial_press
  | release_without_press
  | no_press
deriving DecidableEq

/-- The press-classification core of one `power_button_timer` iteration
(lines 228-252 of the source): given `pressed_time` and what the wait
returned, produce the new `pressed_time` and the `press_type`.  Python
truthiness of `pressed_time` (`None` and `0.0` are falsy) is preserved.
On a key event: a truthy value records the timestamp (`initial_press`);
value 0 with a truthy `pressed_time` classifies by
`curr_time - pressed_time > LONG_PRESS_DELAY` (strict) and clears
`pressed_time`; value 0 otherwise is `release_without_press`.  On a
timeout with a truthy `pressed_time` the type is `long_press` and
`pressed_time` is left unchanged (the source does not clear it there). -/
def timerClassify (pt : Option ℚ) (inp : TimerInput) : Option ℚ × PressType :=
  match inp with
  | .event ty code value t =>
    if ty = EV_KEY ∧ code = KEY_POWER then
      if value ≠ 0 then (some t, .initial_press)
      else
        match pt with
        | some p =>
          if p ≠ 0 then
            (none, if LONG_PRESS_DELAY < t - p then .long_press else .short_press)
          else (pt, .release_without_press)
        | none => (pt, .release_without_press)
    else (pt, .no_press)
  | .timeout =>
    match pt with
    | some p => if p ≠ 0 then (pt, .long_press) else (pt, .no_press)
    | none => (pt, .no_press)

/-- Iterating the classification core over a sequence of wait outcomes,
collecting the dispatched press types in order. -/
def timerRun (pt : Option ℚ) : List TimerInput → Option ℚ × List PressType
  | [] => (pt, [])
  | inp :: rest =>
    let r1 := timerClassify pt inp
    let r2 := timerRun r1.1 rest
    (r2.1, r1.2 :: r2.2)

/-! ## Theorems for claims C2 and C3 -/

/-- Claim C2 (amended): on every timeout expiry while a press is pending,
a long press is dispatched immediately, but the recorded press timestamp
is retained (not cleared), so each further timeout dispatches another
long press: `n` consecutive timeouts from `Pressed(p)` dispatch `n`
long-press actions and leave the state still `Pressed(p)`. -/
theorem C2_timeout_retains (p : ℚ) (hp : p ≠ 0) (n : ℕ) :
    timerRun (some p) (List.replicate n TimerInput.timeout) =
      (some p, List.replicate n PressType.long_press) := by
  induction n with
  | zero => simp [timerRun]
  | succ n ih => simp [List.replicate_succ, timerRun, timerClassify, hp, ih]

/-- Witness for C2: three timeouts while pressed at time 1 dispatch three
long presses. -/
theorem C2_timeout_retains_witness :
    timerRun (some 1) (List.replicate 3 TimerInput.timeout) =
      (some 1, List.replicate 3 PressType.long_press) :=
  C2_timeout_retains 1 one_ne_zero 3

/-- Counterexample for C2 as stated: a timeout while `Pressed(1)` does
not clear the state, and a second timeout dispatches a second long press,
so more than one long-press action is dispatched for a single physical
press when the release never arrives. -/
theorem C2_timeout_counterexample :
    timerClassify (some 1) TimerInput.timeout = (some 1, PressType.long_press) ∧
    (timerClassify (some 1) TimerInput.timeout).1 ≠ none ∧
    timerRun (some 1) [TimerInput.timeout, TimerInput.timeout] =
      (some 1, [PressType.long_press, PressType.long_press]) := by
  have h : timerClassify (some 1) TimerInput.timeout = (some 1, PressType.long_press) := by
    simp [timerClassify]
  exact ⟨h, by simp [h], by simp [timerRun, h]⟩

/-- Claim C3 (amended): a power-key release (`value = 0`) while
`Pressed(p)` clears the state to `Idle` and classifies by elapsed time
with a strict comparison: elapsed > threshold dispatches long press,
elapsed ≤ threshold — including elapsed exactly equal to the threshold —
dispatches short press. -/
theorem C3_release_classify (p t : ℚ) (hp : p ≠ 0) :
    timerClassify (some p) (TimerInput.event EV_KEY KEY_POWER 0 t) =
      (none, if LONG_PRESS_DELAY < t - p then PressType.long_press
             else PressType.short_press) ∧
    (t - p = LONG_PRESS_DELAY →
      timerClassify (some p) (TimerInput.event EV_KEY KEY_POWER 0 t) =
        (none, PressType.short_press)) := by
  constructor
  · simp [timerClassify, hp]
  · intro he
    simp [timerClassify, hp, he]

/-- Witness for C3: releasing at time 2 after a press at time 1 (elapsed
1 ≤ 2.5) is classified by the strict comparison and clears the state. -/
theorem C3_release_classify_witness :
    (timerClassify (some 1) (TimerInput.event EV_KEY KEY_POWER 0 2) =
      (none, if LONG_PRESS_DELAY < (2 : ℚ) - 1 then PressType.long_press
             else PressType.short_press) ∧
    ((2 : ℚ) - 1 = LONG_PRESS_DELAY →
      timerClassify (some 1) (TimerInput.event EV_KEY KEY_POWER 0 2) =
        (none, PressType.short_press))) :=
  C3_release_classify 1 2 one_ne_zero

/-- Counterexample for C3 as stated: a release whose elapsed time is
exactly the threshold (press at 1, release at `1 + 5/2 = 7/2`) is
classified as a short press by the code, not the long press the claim
requires for elapsed ≥ threshold. -/
theorem C3_threshold_counterexample :
    (7/2 : ℚ) - 1 = LONG_PRESS_DELAY ∧
    timerClassify (some 1) (TimerInput.event EV_KEY KEY_POWER 0 (7/2)) =
      (none, PressType.short_press) := by
  constructor
  · norm_num [LONG_PRESS_DELAY]
  · simp [timerClassify, LONG_PRESS_DELAY]
    norm_num

/-! ## Power-button watchdog, two-device variant (`power_button_isa`) -/

/-- A hold-device event reduced to `(ev.type, ev.code, ev.value)`. -/
abbrev Triple := Nat × Nat × ℤ

/-- The hold-sequence matcher step of `power_button_isa` (the
`elif fd == hold_dev.fd` branch): a stale cursor is first reset to 0, a
match with the expected element advances the cursor, a mismatch resets it
to 0, and a cursor reaching the end of the sequence is reset to 0 while
triggering the long-press action.  The matcher is only invoked with a
non-empty sequence (`power_button_isa` returns at entry otherwise). -/
def holdStep (seq : List Triple) (st : ℕ) (chk : Triple) : ℕ × Bool :=
  let s0 := if seq.length ≤ st then 0 else st
  let s1 := if seq[s0]? = some chk then s0 + 1 else 0
  if s1 = seq.length then (0, true) else (s1, false)

/-- Feeding a sequence of hold-device events through the matcher,
counting how many times the long-press action is triggered. -/
def holdRun (seq : List Triple) (st : ℕ) : List Triple → ℕ × ℕ
  | [] => (st, 0)
  | chk :: rest =>
    let r1 := holdStep seq st chk
    let r2 := holdRun seq r1.1 rest
    (r2.1, (if r1.2 then 1 else 0) + r2.2)

/-- The example hold sequence `[(EV_KEY, KEY_A, 1), (EV_KEY, KEY_B, 1)]`. -/
def exSeq : List Triple := [(EV_KEY, KEY_A, 1), (EV_KEY, KEY_B, 1)]

/-- Claim C7: for a non-empty sequence and an in-bounds cursor, an event
equal to the next expected triple advances the cursor (triggering and
resetting to 0 exactly when the end is reached), any other event resets
the cursor to 0 without triggering; and on the example sequence
`[(KEY,A,1),(KEY,B,1)]` both `A,1 B,1` and `A,1 C,1 A,1 B,1` trigger the
action exactly once, ending with cursor 0. -/
theorem C7_hold_matcher (seq : List Triple) (st : ℕ) (chk : Triple)
    (hne : seq ≠ []) (hst : st < seq.length) :
    (seq[st]? = some chk →
      holdStep seq st chk =
        if st + 1 = seq.length then (0, true) else (st + 1, false)) ∧
    (seq[st]? ≠ some chk → holdStep seq st chk = (0, false)) ∧
    holdRun exSeq 0 [(EV_KEY, KEY_A, 1), (EV_KEY, KEY_B, 1)] = (0, 1) ∧
    holdRun exSeq 0
      [(EV_KEY, KEY_A, 1), (EV_KEY, KEY_C, 1), (EV_KEY, KEY_A, 1), (EV_KEY, KEY_B, 1)] =
      (0, 1) := by
  refine ⟨?_, ?_, by decide, by decide⟩
  · intro hm
    simp [holdStep, not_le.mpr hst, hm]
  · intro hm
    have hlen : seq.length ≠ 0 := by
      intro h
      exact hne (List.length_eq_zero.mp h)
    simp [holdStep, not_le.mpr hst, hm, Ne.symm hlen]

/-- Witness for C7: the matcher at cursor 0 of the example sequence. -/
theorem C7_hold_matcher_witness :
    ((exSeq[0]? = some (EV_KEY, KEY_A, 1) →
      holdStep exSeq 0 (EV_KEY, KEY_A, 1) =
        if 0 + 1 = exSeq.length then (0, true) else (0 + 1, false)) ∧
    (exSeq[0]? ≠ some (EV_KEY, KEY_A, 1) →
      holdStep exSeq 0 (EV_KEY, KEY_A, 1) = (0, false)) ∧
    holdRun exSeq 0 [(EV_KEY, KEY_A, 1), (EV_KEY, KEY_B, 1)] = (0, 1) ∧
    holdRun exSeq 0
      [(EV_KEY, KEY_A, 1), (EV_KEY, KEY_C, 1), (EV_KEY, KEY_A, 1), (EV_KEY, KEY_B, 1)] =
      (0, 1)) :=
  C7_hold_matcher exSeq 0 (EV_KEY, KEY_A, 1) (by decide) (by decide)

/-! ## Cooperative cancellation during the gating wait (claim C9) -/

/-- Outcome of a gating-wait loop (`while not is_steam_gamescope_running`). -/
inductive WaitOutcome where
  | gateTrue
  | exited
deriving DecidableEq

/-- The inner gating wait of `power_button_isa` (lines 146-149): each
iteration re-checks the gating predicate, then checks the cancellation
flag and returns if it is set, else sleeps.  `flag i`/`gate i` are the
values sampled at the i-th iteration; `none` means the fuel ran out with
the loop still running. -/
def isaGatingWait (flag gate : ℕ → Bool) : ℕ → ℕ → Option WaitOutcome
  | 0, _ => none
  | fuel + 1, i =>
    if gate i then some WaitOutcome.gateTrue
    else if flag i then some WaitOutcome.exited
    else isaGatingWait flag gate fuel (i + 1)

/-- The inner gating wait of `power_button_timer` (lines 213-214): each
iteration re-checks the gating predicate and sleeps; the cancellation
flag is not consulted anywhere in this loop. -/
def timerGatingWait (gate : ℕ → Bool) : ℕ → ℕ → Option WaitOutcome
  | 0, _ => none
  | fuel + 1, i =>
    if gate i then some WaitOutcome.gateTrue
    else timerGatingWait gate fuel (i + 1)

/-- Claim C9 (amended): in the isa variant the cancellation flag is
observed at the top of the very next gating-wait iteration (the loop
returns as soon as the flag is set while gating is false); in the timer
variant the gating wait never consults the flag, so while gating stays
false it keeps looping no matter the flag, and cancellation there is only
observed by the main loop once gating becomes true. -/
theorem C9_cancel_amended (flag gate : ℕ → Bool) (fuel i : ℕ)
    (hflag : flag i = true) (hgate : gate i = false) :
    isaGatingWait flag gate (fuel + 1) i = some WaitOutcome.exited ∧
    ((∀ j, gate j = false) → timerGatingWait gate fuel i = none) := by
  constructor
  · simp [isaGatingWait, hflag, hgate]
  · intro hall
    clear hflag hgate
    induction fuel generalizing i with
    | zero => simp [timerGatingWait]
    | succ n ih => simp [timerGatingWait, hall i, ih]

/-- Witness for C9: flag set and gating false at iteration 0. -/
theorem C9_cancel_amended_witness :
    isaGatingWait (fun _ : ℕ => true) (fun _ : ℕ => false) (3 + 1) 0 = some WaitOutcome.exited ∧
    ((∀ j : ℕ, (fun _ : ℕ => false) j = false) →
      timerGatingWait (fun _ : ℕ => false) 3 0 = none) :=
  C9_cancel_amended (fun _ => true) (fun _ => false) 3 0 rfl rfl

/-- Counterexample for C9 as stated: with the cancellation flag set from
the start and gating false throughout, the timer variant's gating wait is
still running after 100 iterations (it never checks the flag), while the
isa variant's gating wait exits immediately under the same conditions. -/
theorem C9_cancel_counterexample :
    timerGatingWait (fun _ : ℕ => false) 100 0 = none ∧
    isaGatingWait (fun _ : ℕ => true) (fun _ : ℕ => false) 100 0 = some WaitOutcome.exited := by
  constructor <;> decide

end Hhd
